import Mathlib

/-!
A shallow embedding of `pi_button_to_kbd` (src/main.c): a single-threaded
loop that polls GPIO lines, guards against wall-clock discontinuities,
debounces per line, resolves the settled edge, and emits key sequences to a
uinput virtual keyboard.  Machine integers are modelled as `Int`/`Nat`; the
values involved (milliseconds and seconds over realistic uptimes) are far
below any overflow boundary of the C `int`/`double` arithmetic in the
source, so no wrap-around is modelled.
-/

/-! ## Constants (src/main.c lines 27-78 and Linux input-event-codes.h) -/

def EDGE_RISING : Nat := 0x01
def EDGE_FALLING : Nat := 0x02

def SEC_PER_YEAR : Nat := 31536000

/-- `UP` tag ORed onto a scan code for a key-release entry (0). -/
def UP : Nat := 0x0000
/-- `DOWN` tag ORed onto a scan code for a key-press entry. -/
def DOWN : Nat := 0x1000

def BOUNCE_MSEC : Int := 300

def MAX_PINS : Nat := 16

/-- Default edge detection (`#define EDGE EDGE_FALLING`). -/
def EDGE : Nat := EDGE_FALLING

def CLOCK_ERROR_SECONDS : Nat := SEC_PER_YEAR

/-- Linux scan codes used in the mapping table (input-event-codes.h). -/
def KEY_SPACE : Nat := 57
def KEY_R : Nat := 19
def KEY_LEFTCTRL : Nat := 29

/-- Linux input event types and the sync code. -/
def EV_SYN : Nat := 0x00
def EV_KEY : Nat := 0x01
def SYN_REPORT : Nat := 0

/-! ## Mapping table (src/main.c lines 88-109)

The C arrays are 0-terminated; the sentinel is represented here by the end
of the Lean list. -/

structure Mapping where
  pin : Nat
  keys : List Nat
deriving DecidableEq, Repr

/-- `key_space[] = {KEY_SPACE | DOWN, KEY_SPACE | UP, 0}`. -/
def key_space : List Nat := [KEY_SPACE ||| DOWN, KEY_SPACE ||| UP]

/-- `key_ctrl_r[] = {KEY_LEFTCTRL | DOWN, KEY_R | DOWN, KEY_R | UP, KEY_LEFTCTRL | UP, 0}`. -/
def key_ctrl_r : List Nat :=
  [KEY_LEFTCTRL ||| DOWN, KEY_R ||| DOWN, KEY_R ||| UP, KEY_LEFTCTRL ||| UP]

/-- The static mapping table; the `{0, NULL}` sentinel is the end of the list. -/
def mappings : List Mapping := [⟨20, key_space⟩, ⟨21, key_ctrl_r⟩]

/-- The `pins` array built by `main` from the mapping table (lines 377-384). -/
def pins_list : List Nat := mappings.map Mapping.pin

/-! ## get_mapping (src/main.c lines 289-302)

Scans the table until the pin-0 sentinel; returns NULL (here `none`) when
the pin has no entry. -/

def get_mapping (pin : Nat) : Option Mapping :=
  mappings.find? (fun m => m.pin == pin)

/-! ## uinput emission (src/main.c lines 228-271, 305-365) -/

/-- One `struct input_event` written to the uinput descriptor
(`emit_event`, lines 309-320). -/
structure InputEvent where
  type : Nat
  code : Nat
  value : Nat
deriving DecidableEq, Repr

def emit_event (t c v : Nat) : InputEvent := ⟨t, c, v⟩

/-- `emit_keystroke` (lines 328-340): `key & DOWN` nonzero means press
(value 1), else release (value 0); the code written is `key & 0xFF`; each
key event is followed by a `SYN_REPORT`. -/
def emit_keystroke (key : Nat) : List InputEvent :=
  if key &&& DOWN ≠ 0 then
    [emit_event EV_KEY (key &&& 0xFF) 1, emit_event EV_SYN SYN_REPORT 0]
  else
    [emit_event EV_KEY (key &&& 0xFF) 0, emit_event EV_SYN SYN_REPORT 0]

/-- The inner while loop of `button_pressed` over the 0-terminated keys. -/
def emit_keystrokes : List Nat → List InputEvent
  | [] => []
  | k :: rest => emit_keystroke k ++ emit_keystrokes rest

/-- `button_pressed` (lines 348-365).  Returns the device writes and a flag
recording whether the internal-error branch (`pin with no mapping`) logged
to stderr. -/
def button_pressed (pin : Nat) : List InputEvent × Bool :=
  match get_mapping pin with
  | some m => (emit_keystrokes m.keys, false)
  | none => ([], true)

/-- The `UI_SET_KEYBIT` declarations made by `open_uinput` (lines 236-249):
for every key of every mapping, `raw_keystroke = *keystrokes & 0xFF`. -/
def declared_keys : List Nat :=
  (mappings.map (fun m => m.keys.map (fun k => k &&& 0xFF))).flatten

/-! ## get_pin_state (src/main.c lines 211-221) -/

/-- Outcome of the `read` on a line's `value` pseudo-file: byte count
returned and the first byte (as a character code). -/
structure ReadResult where
  rc : Int
  byte0 : Nat
deriving DecidableEq, Repr

/-- `get_pin_state`: `buff[0] - '0'` when exactly two bytes were read,
`-1` otherwise. -/
def get_pin_state (r : ReadResult) : Int :=
  if r.rc = 2 then (r.byte0 : Int) - 48 else -1

/-- The edge-match test of the main loop (lines 472-473):
`(state == 0 && (edge & EDGE_FALLING)) || (state == 1 && (edge & EDGE_RISING))`. -/
def edge_matches (state : Int) (edge : Nat) : Bool :=
  (state == 0 && (edge &&& EDGE_FALLING != 0)) ||
  (state == 1 && (edge &&& EDGE_RISING != 0))

/-! ## The main loop (src/main.c lines 418-483) -/

/-- Mutable loop state: the clock anchor `start` (seconds, `time_t`) and the
per-index `ticks` array of last-accepted elapsed milliseconds, initialised
to zero (lines 418, 422-423). -/
structure LoopState where
  start : Int
  ticks : List Int
deriving DecidableEq, Repr

/-- One `POLLPRI` wakeup on poll index `idx`: the wall-clock reading at that
moment (`sec` = `time(NULL)` = `tv.tv_sec`, `usec` = `tv.tv_usec`,
0 ≤ usec < 10^6) and the outcome of the settled `get_pin_state` read. -/
structure GpioEvent where
  idx : Nat
  sec : Int
  usec : Nat
  readRc : Int
  readByte : Nat
deriving DecidableEq, Repr

/-- `total_msec` (lines 455-458): `(tv.tv_sec - start) * 1000.0 + tv.tv_usec/1000`. -/
def total_msec (start : Int) (e : GpioEvent) : Int :=
  (e.sec - start) * 1000 + (e.usec / 1000 : Nat)

/-- The clock-guard test (line 448): the event is valid when
`abs(time(NULL) - start)` does not exceed `CLOCK_ERROR_SECONDS`. -/
def clock_valid (start : Int) (e : GpioEvent) : Bool :=
  (e.sec - start).natAbs ≤ CLOCK_ERROR_SECONDS

/-- The debounce-accept test of line 462:
`total_msec - ticks[i] > bounce_time && total_msec > 1000`. -/
def debounce_ok (start : Int) (ticks : List Int) (e : GpioEvent) : Bool :=
  total_msec start e - ticks.getD e.idx 0 > BOUNCE_MSEC && total_msec start e > 1000

/-- What processing one wakeup produced. -/
structure EventOutcome where
  clockReset : Bool
  accepted : Bool
  emitted : List InputEvent
  logged : Bool
deriving DecidableEq, Repr

/-- The body of the per-pin branch of the main loop (lines 433-481) for one
pending event: clock guard, debounce (`total_msec - ticks[i] > bounce_time
&& total_msec > 1000`), settled-state sampling, edge match, emission, and
the `ticks[i] = total_msec` update. -/
def process_event (edge : Nat) (pins : List Nat) (s : LoopState) (e : GpioEvent) :
    LoopState × EventOutcome :=
  if (e.sec - s.start).natAbs > CLOCK_ERROR_SECONDS then
    (⟨e.sec, s.ticks⟩, ⟨true, false, [], false⟩)
  else
    let t := total_msec s.start e
    if debounce_ok s.start s.ticks e then
      let st := get_pin_state ⟨e.readRc, e.readByte⟩
      let pr :=
        if edge_matches st edge then button_pressed (pins.getD e.idx 0)
        else ([], false)
      (⟨s.start, s.ticks.set e.idx t⟩, ⟨false, true, pr.1, pr.2⟩)
    else
      (s, ⟨false, false, [], false⟩)

/-- The main loop run over a sequence of pending events (the loop exits when
the `quit` flag is observed, i.e. when the list is exhausted). -/
def run_events (edge : Nat) (pins : List Nat) :
    LoopState → List GpioEvent → LoopState × List EventOutcome
  | s, [] => (s, [])
  | s, e :: rest =>
      let p := process_event edge pins s e
      let q := run_events edge pins p.1 rest
      (q.1, p.2 :: q.2)

/-! ## Process-level model: setup, loop, cleanup, exit status
(src/main.c lines 139-200, 228-271, 370-488) -/

/-- Which host operations succeed during a run.  Each field corresponds to
one fallible call the program makes: the three `write_to_file` calls of
`export_pins` for a pin, the `open` of `/dev/uinput`, the per-pin `open` of
the `value` pseudo-file before the loop (lines 403-416), and the
`write_to_file` of `unexport_pins`.  `startTime` is `time(NULL)` at line
418 and `events` are the `POLLPRI` wakeups until `quit` is observed. -/
structure Env where
  exportOk : Nat → Bool
  directionOk : Nat → Bool
  edgeOk : Nat → Bool
  uinputOk : Bool
  valueOpenOk : Nat → Bool
  unexportOk : Nat → Bool
  startTime : Int
  events : List GpioEvent

/-- `write_to_file` (lines 147-161): on any failure the process calls
`exit(-1)` immediately; modelled as `Except Int`. -/
def write_to_file (ok : Bool) : Except Int Unit :=
  if ok then .ok () else .error (-1)

/-- `export_pins` (lines 186-200): per pin, write the pin number to the
export file, then `in` to the direction file, then `both` to the edge file,
exiting on the first failure. -/
def export_pins (env : Env) : List Nat → Except Int Unit
  | [] => .ok ()
  | p :: rest =>
      match write_to_file (env.exportOk p) with
      | .error c => .error c
      | .ok _ =>
        match write_to_file (env.directionOk p) with
        | .error c => .error c
        | .ok _ =>
          match write_to_file (env.edgeOk p) with
          | .error c => .error c
          | .ok _ => export_pins env rest

/-- `open_uinput` (lines 228-271): calls `exit(-1)` when `/dev/uinput`
cannot be opened. -/
def open_uinput (env : Env) : Except Int Unit :=
  if env.uinputOk then .ok () else .error (-1)

/-- The per-pin `open` of the `value` file before the loop (lines 403-416):
`exit(-1)` on the first pin whose file cannot be opened. -/
def open_value_files (env : Env) : List Nat → Except Int Unit
  | [] => .ok ()
  | p :: rest =>
      if env.valueOpenOk p then open_value_files env rest else .error (-1)

/-- `unexport_pins` (lines 167-176): each unexport is a `write_to_file`, so
a failing one exits mid-cleanup; returns the pins successfully unexported
and the exit code if that happened. -/
def unexport_pins (env : Env) : List Nat → List Nat × Option Int
  | [] => ([], none)
  | p :: rest =>
      match write_to_file (env.unexportOk p) with
      | .ok _ =>
          let r := unexport_pins env rest
          (p :: r.1, r.2)
      | .error c => ([], some c)

/-- Observable result of a whole process run: the exit status (`exit(-1)`
on failure — a nonzero status — and falling off the end of `main`, status
0, on graceful quit), the pins unexported on the way out, whether the
uinput descriptor was closed, and what the loop produced. -/
structure RunResult where
  exitCode : Int
  unexported : List Nat
  uinputClosed : Bool
  outcomes : List EventOutcome
deriving Repr

/-- `main` (lines 370-488): build `pins` from the table, export them, open
uinput, open the value files, poll until `quit`, then unexport the pins and
close the uinput descriptor. -/
def run_main (env : Env) : RunResult :=
  match export_pins env pins_list with
  | .error c => ⟨c, [], false, []⟩
  | .ok _ =>
    match open_uinput env with
    | .error c => ⟨c, [], false, []⟩
    | .ok _ =>
      match open_value_files env pins_list with
      | .error c => ⟨c, [], false, []⟩
      | .ok _ =>
        let r := run_events EDGE pins_list
          ⟨env.startTime, List.replicate MAX_PINS 0⟩ env.events
        match unexport_pins env pins_list with
        | (done, some c) => ⟨c, done, false, r.2⟩
        | (done, none) => ⟨0, done, true, r.2⟩

/-- What the accept branch of `process_event` emits: the keystrokes of the
pin's mapping when the settled state matches the configured edge, nothing
otherwise, plus the internal-error log flag. -/
def accept_action (edge : Nat) (pins : List Nat) (e : GpioEvent) :
    List InputEvent × Bool :=
  if edge_matches (get_pin_state ⟨e.readRc, e.readByte⟩) edge then
    button_pressed (pins.getD e.idx 0)
  else ([], false)

/-- All one-time setup operations of `main` succeed: the three export
writes per pin, the uinput open, and the per-pin value-file opens. -/
def setup_ok (env : Env) : Bool :=
  pins_list.all (fun p => env.exportOk p && env.directionOk p && env.edgeOk p) &&
  env.uinputOk && pins_list.all env.valueOpenOk

/-! ## Helper lemmas -/

lemma getD_set_ne (l : List Int) (i j : Nat) (v : Int) (h : j ≠ i) :
    (l.set i v).getD j 0 = l.getD j 0 := by
  induction l generalizing i j with
  | nil => rfl
  | cons a l ih =>
      cases i with
      | zero =>
          cases j with
          | zero => exact absurd rfl h
          | succ j => rfl
      | succ i =>
          cases j with
          | zero => rfl
          | succ j => simpa using ih i j (by omega)

lemma land_255_eq_mod (k : Nat) : k &&& 255 = k % 256 := by
  apply Nat.eq_of_testBit_eq
  intro i
  have h255 : (255 : Nat) = 2 ^ 8 - 1 := by norm_num
  have h256 : (256 : Nat) = 2 ^ 8 := by norm_num
  rw [Nat.testBit_land, h255, h256, Nat.testBit_mod_two_pow,
    Nat.testBit_two_pow_sub_one, Bool.and_comm]

lemma process_event_reset_eq (edge : Nat) (pins : List Nat) (s : LoopState)
    (e : GpioEvent) (h : (e.sec - s.start).natAbs > CLOCK_ERROR_SECONDS) :
    process_event edge pins s e = (⟨e.sec, s.ticks⟩, ⟨true, false, [], false⟩) := by
  dsimp only [process_event]
  rw [if_pos h]

lemma process_event_accept_eq (edge : Nat) (pins : List Nat) (s : LoopState)
    (e : GpioEvent) (h1 : ¬ (e.sec - s.start).natAbs > CLOCK_ERROR_SECONDS)
    (h2 : debounce_ok s.start s.ticks e = true) :
    process_event edge pins s e =
      (⟨s.start, s.ticks.set e.idx (total_msec s.start e)⟩,
       ⟨false, true, (accept_action edge pins e).1, (accept_action edge pins e).2⟩) := by
  dsimp only [process_event]
  rw [if_neg h1, if_pos h2]
  rfl

lemma process_event_reject_eq (edge : Nat) (pins : List Nat) (s : LoopState)
    (e : GpioEvent) (h1 : ¬ (e.sec - s.start).natAbs > CLOCK_ERROR_SECONDS)
    (h2 : ¬ debounce_ok s.start s.ticks e = true) :
    process_event edge pins s e = (s, ⟨false, false, [], false⟩) := by
  dsimp only [process_event]
  rw [if_neg h1, if_neg h2]

/-! ## Claim theorems -/

/-- C1: for a monitored line and an event with a valid clock reading, the
debounce filter accepts — and then sets that line's last-accepted time to
the elapsed milliseconds — iff
`total_msec - ticks[i] > BOUNCE_MSEC (300)` and `total_msec > 1000`; a
rejected event leaves the entire state unchanged and emits nothing. -/
theorem process_event_accept_iff (s : LoopState) (e : GpioEvent)
    (hidx : e.idx < s.ticks.length) (hv : clock_valid s.start e = true) :
    ((process_event EDGE pins_list s e).2.accepted = true ↔
      total_msec s.start e - s.ticks.getD e.idx 0 > BOUNCE_MSEC ∧
      total_msec s.start e > 1000) ∧
    ((process_event EDGE pins_list s e).2.accepted = true →
      (process_event EDGE pins_list s e).1 =
        ⟨s.start, s.ticks.set e.idx (total_msec s.start e)⟩) ∧
    ((process_event EDGE pins_list s e).2.accepted = false →
      (process_event EDGE pins_list s e).1 = s ∧
      (process_event EDGE pins_list s e).2.emitted = []) := by
  have hnot : ¬ (e.sec - s.start).natAbs > CLOCK_ERROR_SECONDS := by
    simpa [clock_valid] using hv
  have hiff : debounce_ok s.start s.ticks e = true ↔
      (total_msec s.start e - s.ticks.getD e.idx 0 > BOUNCE_MSEC ∧
        total_msec s.start e > 1000) := by
    simp [debounce_ok]
  by_cases hc : debounce_ok s.start s.ticks e = true
  · rw [process_event_accept_eq EDGE pins_list s e hnot hc]
    exact ⟨iff_of_true rfl (hiff.mp hc), fun _ => rfl, fun h => nomatch h⟩
  · rw [process_event_reject_eq EDGE pins_list s e hnot hc]
    refine ⟨iff_of_false (fun h => nomatch h) (fun hp => hc (hiff.mpr hp)),
      ?_, fun _ => ⟨rfl, rfl⟩⟩
    intro h
    exact nomatch h

/-- Witness for C1 at a concrete accepted event (2000 ms elapsed, fresh
state). -/
theorem process_event_accept_iff_witness :
    ((⟨0, 2, 0, 2, 48⟩ : GpioEvent).idx < ([0, 0] : List Int).length ∧
      clock_valid 0 ⟨0, 2, 0, 2, 48⟩ = true) ∧
    ((process_event EDGE pins_list ⟨0, [0, 0]⟩ ⟨0, 2, 0, 2, 48⟩).2.accepted = true ↔
      total_msec 0 ⟨0, 2, 0, 2, 48⟩ - ([0, 0] : List Int).getD 0 0 > BOUNCE_MSEC ∧
      total_msec 0 ⟨0, 2, 0, 2, 48⟩ > 1000) :=
  ⟨⟨by decide, by decide⟩,
    (process_event_accept_iff ⟨0, [0, 0]⟩ ⟨0, 2, 0, 2, 48⟩ (by decide) (by decide)).1⟩

/-- C4: when `abs(now - start)` exceeds `CLOCK_ERROR_SECONDS` (one year),
the anchor is reset to `now` and the in-flight event is discarded
atomically: the ticks array is untouched, nothing is emitted, and the
event is not accepted. -/
theorem clock_jump_resets_and_discards (edge : Nat) (pins : List Nat)
    (s : LoopState) (e : GpioEvent)
    (h : (e.sec - s.start).natAbs > CLOCK_ERROR_SECONDS) :
    process_event edge pins s e = (⟨e.sec, s.ticks⟩, ⟨true, false, [], false⟩) :=
  process_event_reset_eq edge pins s e h

/-- Witness for C4 at a two-year forward jump. -/
theorem clock_jump_resets_and_discards_witness :
    (((⟨0, 63072000, 0, 2, 48⟩ : GpioEvent).sec - (0 : Int)).natAbs >
      CLOCK_ERROR_SECONDS) ∧
    process_event EDGE pins_list ⟨0, [5, 7]⟩ ⟨0, 63072000, 0, 2, 48⟩ =
      (⟨63072000, [5, 7]⟩, ⟨true, false, [], false⟩) :=
  ⟨by decide,
    clock_jump_resets_and_discards EDGE pins_list ⟨0, [5, 7]⟩
      ⟨0, 63072000, 0, 2, 48⟩ (by decide)⟩

/-- C9: debounce is strictly per line — processing an event on one poll
index (accepted, rejected or clock-reset) never changes the last-accepted
timestamp stored for any other index. -/
theorem process_event_frame (edge : Nat) (pins : List Nat) (s : LoopState)
    (e : GpioEvent) (j : Nat) (hj : j ≠ e.idx) :
    ((process_event edge pins s e).1).ticks.getD j 0 = s.ticks.getD j 0 := by
  by_cases h1 : (e.sec - s.start).natAbs > CLOCK_ERROR_SECONDS
  · rw [process_event_reset_eq edge pins s e h1]
  · by_cases h2 : debounce_ok s.start s.ticks e = true
    · rw [process_event_accept_eq edge pins s e h1 h2]
      exact getD_set_ne s.ticks e.idx j _ hj
    · rw [process_event_reject_eq edge pins s e h1 h2]

/-- Witness for C9: an accepted event on index 0 leaves index 1's timestamp
alone. -/
theorem process_event_frame_witness :
    ((1 : Nat) ≠ (⟨0, 2, 0, 2, 48⟩ : GpioEvent).idx) ∧
    ((process_event EDGE pins_list ⟨0, [5, 7]⟩ ⟨0, 2, 0, 2, 48⟩).1).ticks.getD 1 0 =
      ([5, 7] : List Int).getD 1 0 :=
  ⟨by decide,
    process_event_frame EDGE pins_list ⟨0, [5, 7]⟩ ⟨0, 2, 0, 2, 48⟩ 1 (by decide)⟩

/-- C10: each key-table entry `k` is emitted with code `k & 0xFF = k % 256`
(its low byte) and value 1 exactly when the `DOWN` tag bit `0x1000` (bit
12) is set, followed by one sync report; the `UI_SET_KEYBIT` declarations
likewise truncate every configured code to its low byte. -/
theorem emit_keystroke_truncates_to_low_byte (k : Nat) :
    emit_keystroke k =
      [⟨EV_KEY, k % 256, if k.testBit 12 then 1 else 0⟩,
       ⟨EV_SYN, SYN_REPORT, 0⟩] ∧
    declared_keys =
      (mappings.map (fun m => m.keys.map (fun j => j % 256))).flatten := by
  refine ⟨?_, by decide⟩
  have hmod : k &&& 0xFF = k % 256 := land_255_eq_mod k
  have hand : k &&& DOWN = (k.testBit 12).toNat * 4096 := by
    have h := Nat.and_two_pow k 12
    norm_num at h
    simpa [DOWN] using h
  by_cases hb : k.testBit 12
  · have hcond : k &&& DOWN ≠ 0 := by simp [hand, hb]
    rw [emit_keystroke, if_pos hcond]
    simp [emit_event, hmod, hb]
  · have hcond : ¬ (k &&& DOWN ≠ 0) := by simp [hand, hb]
    rw [emit_keystroke, if_neg hcond]
    simp [emit_event, hmod, hb]

/-! ## Further helper lemmas for the loop and process model -/

lemma getD_set_self (l : List Int) (i : Nat) (v : Int) (h : i < l.length) :
    (l.set i v).getD i 0 = v := by
  induction l generalizing i with
  | nil => simp at h
  | cons a l ih =>
      cases i with
      | zero => rfl
      | succ i => simpa using ih i (by simpa using h)

lemma run_events_length (edge : Nat) (pins : List Nat) (s : LoopState)
    (es : List GpioEvent) :
    ((run_events edge pins s es).2).length = es.length := by
  induction es generalizing s with
  | nil => rfl
  | cons e es ih => simp [run_events, ih]

lemma process_event_valid_accept_iff (edge : Nat) (pins : List Nat)
    (s : LoopState) (e : GpioEvent) (hv : clock_valid s.start e = true) :
    ((process_event edge pins s e).2.accepted = true ↔
      total_msec s.start e - s.ticks.getD e.idx 0 > BOUNCE_MSEC ∧
      total_msec s.start e > 1000) ∧
    ((process_event edge pins s e).2.accepted = true →
      (process_event edge pins s e).2.emitted = (accept_action edge pins e).1) := by
  have hnot : ¬ (e.sec - s.start).natAbs > CLOCK_ERROR_SECONDS := by
    simpa [clock_valid] using hv
  have hiff : debounce_ok s.start s.ticks e = true ↔
      (total_msec s.start e - s.ticks.getD e.idx 0 > BOUNCE_MSEC ∧
        total_msec s.start e > 1000) := by
    simp [debounce_ok]
  by_cases hc : debounce_ok s.start s.ticks e = true
  · rw [process_event_accept_eq edge pins s e hnot hc]
    exact ⟨iff_of_true rfl (hiff.mp hc), fun _ => rfl⟩
  · rw [process_event_reject_eq edge pins s e hnot hc]
    refine ⟨iff_of_false (fun h => nomatch h) (fun hp => hc (hiff.mpr hp)), ?_⟩
    intro h
    exact nomatch h

lemma run_events_all_rejected (edge : Nat) (pins : List Nat) (s : LoopState)
    (idx : Nat) (T0 : Int) (hT : s.ticks.getD idx 0 = T0)
    (es : List GpioEvent)
    (hes : ∀ e ∈ es, e.idx = idx ∧ clock_valid s.start e = true ∧
      total_msec s.start e - T0 ≤ BOUNCE_MSEC) :
    run_events edge pins s es = (s, es.map (fun _ => ⟨false, false, [], false⟩)) := by
  induction es with
  | nil => rfl
  | cons e es ih =>
      obtain ⟨hi, hv, hw⟩ := hes e (List.mem_cons_self e es)
      have hnot : ¬ (e.sec - s.start).natAbs > CLOCK_ERROR_SECONDS := by
        simpa [clock_valid] using hv
      have hrej : ¬ debounce_ok s.start s.ticks e = true := by
        rw [debounce_ok, hi, hT]
        simp only [Bool.and_eq_true, decide_eq_true_eq, not_and]
        intro hgt
        omega
      have hpe := process_event_reject_eq edge pins s e hnot hrej
      simp [run_events, hpe, ih (fun x hx => hes x (List.mem_cons_of_mem e hx))]

lemma emit_keystroke_eq (k : Nat) :
    emit_keystroke k =
      [⟨EV_KEY, k &&& 0xFF, if k &&& DOWN ≠ 0 then 1 else 0⟩,
       ⟨EV_SYN, SYN_REPORT, 0⟩] := by
  by_cases h : k &&& DOWN ≠ 0
  · simp [emit_keystroke, emit_event, h]
  · simp [emit_keystroke, emit_event, h]

lemma emit_keystrokes_flatten (keys : List Nat) :
    emit_keystrokes keys = (keys.map emit_keystroke).flatten := by
  induction keys with
  | nil => rfl
  | cons k ks ih => simp [emit_keystrokes, ih]

lemma emit_keystrokes_length (keys : List Nat) :
    (emit_keystrokes keys).length = 2 * keys.length := by
  induction keys with
  | nil => rfl
  | cons k ks ih =>
      have h2 : (emit_keystroke k).length = 2 := by rw [emit_keystroke_eq]; rfl
      simp [emit_keystrokes, h2, ih]
      omega

lemma export_pins_eq (env : Env) (ps : List Nat) :
    export_pins env ps =
      if ps.all (fun p => env.exportOk p && env.directionOk p && env.edgeOk p) then
        Except.ok () else Except.error (-1) := by
  induction ps with
  | nil => rfl
  | cons p rest ih =>
      by_cases h1 : env.exportOk p
      · by_cases h2 : env.directionOk p
        · by_cases h3 : env.edgeOk p
          · simp [export_pins, write_to_file, h1, h2, h3, ih]
          · simp [export_pins, write_to_file, h1, h2, h3]
        · simp [export_pins, write_to_file, h1, h2]
      · simp [export_pins, write_to_file, h1]

lemma open_value_files_eq (env : Env) (ps : List Nat) :
    open_value_files env ps =
      if ps.all env.valueOpenOk then Except.ok () else Except.error (-1) := by
  induction ps with
  | nil => rfl
  | cons p rest ih =>
      by_cases h1 : env.valueOpenOk p
      · simp [open_value_files, h1, ih]
      · simp [open_value_files, h1]

lemma unexport_pins_all_ok (env : Env) (ps : List Nat)
    (h : ps.all env.unexportOk = true) :
    unexport_pins env ps = (ps, none) := by
  induction ps with
  | nil => rfl
  | cons p rest ih =>
      simp only [List.all_cons, Bool.and_eq_true] at h
      simp [unexport_pins, write_to_file, h.1, ih h.2]

/-- C2: a clock discontinuity resets the anchor to the event's time and
discards that event without touching any per-line debounce timestamp; a
subsequent event with a valid reading against the new anchor is then
processed normally — accepted iff the ordinary bounce-window and
startup-grace conditions hold for its elapsed time measured from the new
anchor, and on acceptance the ordinary edge-gated emission runs. -/
theorem anchor_reset_recovery (s : LoopState) (e e' : GpioEvent)
    (hjump : (e.sec - s.start).natAbs > CLOCK_ERROR_SECONDS)
    (hv' : clock_valid e.sec e' = true) :
    process_event EDGE pins_list s e = (⟨e.sec, s.ticks⟩, ⟨true, false, [], false⟩) ∧
    ((process_event EDGE pins_list (process_event EDGE pins_list s e).1 e').2.accepted = true ↔
      total_msec e.sec e' - s.ticks.getD e'.idx 0 > BOUNCE_MSEC ∧
      total_msec e.sec e' > 1000) ∧
    ((process_event EDGE pins_list (process_event EDGE pins_list s e).1 e').2.accepted = true →
      (process_event EDGE pins_list (process_event EDGE pins_list s e).1 e').2.emitted =
        (accept_action EDGE pins_list e').1) := by
  have h1 := process_event_reset_eq EDGE pins_list s e hjump
  have h2 := process_event_valid_accept_iff EDGE pins_list ⟨e.sec, s.ticks⟩ e' hv'
  refine ⟨h1, ?_, ?_⟩
  · rw [h1]
    exact h2.1
  · rw [h1]
    exact h2.2

/-- Witness for C2: a two-year jump on a fresh state, then an event 2 s
after the new anchor. -/
theorem anchor_reset_recovery_witness :
    ((((⟨0, 63072000, 0, 2, 48⟩ : GpioEvent).sec - (0 : Int)).natAbs >
        CLOCK_ERROR_SECONDS) ∧
      clock_valid 63072000 ⟨0, 63072002, 0, 2, 48⟩ = true) ∧
    process_event EDGE pins_list ⟨0, [0, 0]⟩ ⟨0, 63072000, 0, 2, 48⟩ =
      (⟨63072000, [0, 0]⟩, ⟨true, false, [], false⟩) :=
  ⟨⟨by decide, by decide⟩,
    (anchor_reset_recovery ⟨0, [0, 0]⟩ ⟨0, 63072000, 0, 2, 48⟩
      ⟨0, 63072002, 0, 2, 48⟩ (by decide) (by decide)).1⟩

/-- C3 as stated is false on the code: three transitions on poll index 0 at
2000 ms, 2290 ms and 2580 ms — every consecutive gap is 290 ms, below the
300 ms bounce window — yet the third is accepted (and the burst is past the
startup grace), because the window is measured from the last *accepted*
transition, which stays at 2000 ms while events are rejected. -/
theorem burst_counterexample :
    (total_msec 0 ⟨0, 2, 290000, 2, 48⟩ - total_msec 0 ⟨0, 2, 0, 2, 48⟩ <
        BOUNCE_MSEC ∧
      total_msec 0 ⟨0, 2, 580000, 2, 48⟩ - total_msec 0 ⟨0, 2, 290000, 2, 48⟩ <
        BOUNCE_MSEC) ∧
    ((run_events EDGE pins_list ⟨0, [0, 0]⟩
        [⟨0, 2, 0, 2, 48⟩, ⟨0, 2, 290000, 2, 48⟩, ⟨0, 2, 580000, 2, 48⟩]).2.map
      EventOutcome.accepted) = [true, false, true] :=
  ⟨⟨by decide, by decide⟩, by decide⟩

/-- C3, amended: for a burst on one monitored line whose first transition
passes the debounce and startup-grace tests and whose every later
transition lies within the bounce window *of the first*, only the first is
accepted (producing the edge-gated emission); every later transition is
rejected, with no state change and no emission. -/
theorem burst_only_first_accepted (s : LoopState) (e0 : GpioEvent)
    (rest : List GpioEvent) (hidx : e0.idx < s.ticks.length)
    (hv0 : clock_valid s.start e0 = true)
    (hacc : debounce_ok s.start s.ticks e0 = true)
    (hrest : ∀ e ∈ rest, e.idx = e0.idx ∧ clock_valid s.start e = true ∧
      total_msec s.start e - total_msec s.start e0 ≤ BOUNCE_MSEC) :
    (run_events EDGE pins_list s (e0 :: rest)).2 =
      ⟨false, true, (accept_action EDGE pins_list e0).1,
        (accept_action EDGE pins_list e0).2⟩ ::
      rest.map (fun _ => ⟨false, false, [], false⟩) := by
  have hnot0 : ¬ (e0.sec - s.start).natAbs > CLOCK_ERROR_SECONDS := by
    simpa [clock_valid] using hv0
  have hpe0 := process_event_accept_eq EDGE pins_list s e0 hnot0 hacc
  have hT : ((⟨s.start, s.ticks.set e0.idx (total_msec s.start e0)⟩ :
      LoopState)).ticks.getD e0.idx 0 = total_msec s.start e0 :=
    getD_set_self s.ticks e0.idx _ hidx
  have hrun := run_events_all_rejected EDGE pins_list
    ⟨s.start, s.ticks.set e0.idx (total_msec s.start e0)⟩ e0.idx
    (total_msec s.start e0) hT rest hrest
  simp [run_events, hpe0, hrun]

/-- Witness for the amended C3: first transition at 2000 ms accepted, a
second one 200 ms later rejected. -/
theorem burst_only_first_accepted_witness :
    (((⟨0, 2, 0, 2, 48⟩ : GpioEvent).idx < ([0, 0] : List Int).length ∧
      clock_valid 0 ⟨0, 2, 0, 2, 48⟩ = true ∧
      debounce_ok 0 [0, 0] ⟨0, 2, 0, 2, 48⟩ = true) ∧
      (∀ e ∈ [(⟨0, 2, 200000, 2, 48⟩ : GpioEvent)],
        e.idx = (⟨0, 2, 0, 2, 48⟩ : GpioEvent).idx ∧ clock_valid 0 e = true ∧
        total_msec 0 e - total_msec 0 ⟨0, 2, 0, 2, 48⟩ ≤ BOUNCE_MSEC)) ∧
    (run_events EDGE pins_list ⟨0, [0, 0]⟩
        [⟨0, 2, 0, 2, 48⟩, ⟨0, 2, 200000, 2, 48⟩]).2 =
      ⟨false, true, (accept_action EDGE pins_list ⟨0, 2, 0, 2, 48⟩).1,
        (accept_action EDGE pins_list ⟨0, 2, 0, 2, 48⟩).2⟩ ::
      [(⟨0, 2, 200000, 2, 48⟩ : GpioEvent)].map
        (fun _ => ⟨false, false, [], false⟩) :=
  ⟨⟨⟨by decide, by decide, by decide⟩, by decide⟩,
    burst_only_first_accepted ⟨0, [0, 0]⟩ ⟨0, 2, 0, 2, 48⟩
      [⟨0, 2, 200000, 2, 48⟩] (by decide) (by decide) (by decide) (by decide)⟩

/-- C5: for a debounce-accepted event, the key writes are exactly the pin's
mapping output when the settled sampled level matches the configured edge
set and nothing otherwise; level 0 matches via the falling-edge bit and
level 1 via the rising-edge bit; a monitored pin (20 or 21) does emit on a
match; a read that is not exactly two bytes yields a level (-1) that
matches no edge configuration; and processing never aborts the loop — one
outcome is produced per pending event. -/
theorem settled_level_gates_emission (s : LoopState) (e : GpioEvent)
    (hv : clock_valid s.start e = true)
    (hacc : debounce_ok s.start s.ticks e = true) :
    ((process_event EDGE pins_list s e).2.emitted =
      if edge_matches (get_pin_state ⟨e.readRc, e.readByte⟩) EDGE then
        (button_pressed (pins_list.getD e.idx 0)).1
      else []) ∧
    (∀ edge : Nat, edge_matches 0 edge = (edge &&& EDGE_FALLING != 0)) ∧
    (∀ edge : Nat, edge_matches 1 edge = (edge &&& EDGE_RISING != 0)) ∧
    (e.readRc ≠ 2 →
      ∀ edge : Nat, edge_matches (get_pin_state ⟨e.readRc, e.readByte⟩) edge = false) ∧
    (edge_matches (get_pin_state ⟨e.readRc, e.readByte⟩) EDGE = true →
      (pins_list.getD e.idx 0 = 20 ∨ pins_list.getD e.idx 0 = 21) →
      (process_event EDGE pins_list s e).2.emitted ≠ []) ∧
    (∀ rest : List GpioEvent,
      ((run_events EDGE pins_list s (e :: rest)).2).length = rest.length + 1) := by
  have hnot : ¬ (e.sec - s.start).natAbs > CLOCK_ERROR_SECONDS := by
    simpa [clock_valid] using hv
  have hpe := process_event_accept_eq EDGE pins_list s e hnot hacc
  have hemit : (process_event EDGE pins_list s e).2.emitted =
      if edge_matches (get_pin_state ⟨e.readRc, e.readByte⟩) EDGE then
        (button_pressed (pins_list.getD e.idx 0)).1
      else [] := by
    rw [hpe]
    by_cases hm : edge_matches (get_pin_state ⟨e.readRc, e.readByte⟩) EDGE = true
    · simp [accept_action, hm]
    · simp [accept_action, hm]
  refine ⟨hemit, ?_, ?_, ?_, ?_, ?_⟩
  · intro edge
    simp [edge_matches]
  · intro edge
    simp [edge_matches]
  · intro h edge
    have hst : get_pin_state ⟨e.readRc, e.readByte⟩ = -1 := by
      simp [get_pin_state, h]
    rw [hst]
    simp [edge_matches]
  · intro hm hp
    rw [hemit, if_pos hm]
    rcases hp with h20 | h21
    · rw [h20]
      decide
    · rw [h21]
      decide
  · intro rest
    simpa using run_events_length EDGE pins_list s (e :: rest)

/-- Witness for C5: an accepted, matched (settled level 0, falling edge)
event on pin 20. -/
theorem settled_level_gates_emission_witness :
    (clock_valid 0 ⟨0, 2, 0, 2, 48⟩ = true ∧
      debounce_ok 0 [0, 0] ⟨0, 2, 0, 2, 48⟩ = true) ∧
    ((process_event EDGE pins_list ⟨0, [0, 0]⟩ ⟨0, 2, 0, 2, 48⟩).2.emitted =
      if edge_matches (get_pin_state ⟨2, 48⟩) EDGE then
        (button_pressed (pins_list.getD 0 0)).1
      else []) :=
  ⟨⟨by decide, by decide⟩,
    (settled_level_gates_emission ⟨0, [0, 0]⟩ ⟨0, 2, 0, 2, 48⟩
      (by decide) (by decide)).1⟩

/-- C6: for a pin with an N-transition mapping, one invocation of the
emitter writes the N transitions in declared order, each immediately
followed by exactly one `SYN_REPORT`, for 2N device writes in total; a
`DOWN`-tagged entry is written with value 1 (press) and an untagged entry
with value 0 (release). -/
theorem mapping_emission_interleaved (pin : Nat) (m : Mapping)
    (h : get_mapping pin = some m) :
    (button_pressed pin).1 =
      (m.keys.map (fun k =>
        [(⟨EV_KEY, k &&& 0xFF, if k &&& DOWN ≠ 0 then 1 else 0⟩ : InputEvent),
         (⟨EV_SYN, SYN_REPORT, 0⟩ : InputEvent)])).flatten ∧
    (button_pressed pin).1.length = 2 * m.keys.length := by
  have hb : (button_pressed pin).1 = emit_keystrokes m.keys := by
    simp [button_pressed, h]
  constructor
  · rw [hb, emit_keystrokes_flatten, funext emit_keystroke_eq]
  · rw [hb, emit_keystrokes_length]

/-- Witness for C6 on pin 21's four-step chord: eight device writes. -/
theorem mapping_emission_interleaved_witness :
    get_mapping 21 = some ⟨21, key_ctrl_r⟩ ∧
    (button_pressed 21).1.length = 2 * key_ctrl_r.length ∧
    2 * key_ctrl_r.length = 8 :=
  ⟨by decide,
    (mapping_emission_interleaved 21 ⟨21, key_ctrl_r⟩ (by decide)).2,
    by decide⟩

/-- C7: the process exits with status 0 on graceful cancellation after full
cleanup (all pins unexported, uinput closed); any unrecoverable setup
failure — a failed export write, a failed `/dev/uinput` open, or a failed
`value`-file open — terminates immediately with the nonzero status -1 and
performs no cleanup at all (no pin already exported is unexported, the
uinput descriptor is not closed). -/
theorem exit_status_and_cleanup (env : Env) :
    (setup_ok env = true → pins_list.all env.unexportOk = true →
      (run_main env).exitCode = 0 ∧ (run_main env).unexported = pins_list ∧
      (run_main env).uinputClosed = true) ∧
    (setup_ok env = false →
      (run_main env).exitCode ≠ 0 ∧ (run_main env).unexported = [] ∧
      (run_main env).uinputClosed = false) := by
  constructor
  · intro hs hu
    have h := hs
    simp only [setup_ok, Bool.and_eq_true] at h
    obtain ⟨⟨hA, hB⟩, hC⟩ := h
    simp [run_main, export_pins_eq, hA, open_uinput, hB, open_value_files_eq,
      hC, unexport_pins_all_ok env pins_list hu]
  · intro hs
    by_cases hA : pins_list.all
        (fun p => env.exportOk p && env.directionOk p && env.edgeOk p) = true
    · by_cases hB : env.uinputOk = true
      · have hC : pins_list.all env.valueOpenOk = false := by
          simpa [setup_ok, hA, hB] using hs
        simp [run_main, export_pins_eq, hA, open_uinput, hB,
          open_value_files_eq, hC]
      · have hB' : env.uinputOk = false := by
          revert hB
          cases env.uinputOk <;> simp
        simp [run_main, export_pins_eq, hA, open_uinput, hB']
    · have hA' : pins_list.all
          (fun p => env.exportOk p && env.directionOk p && env.edgeOk p) = false := by
        revert hA
        cases pins_list.all
          (fun p => env.exportOk p && env.directionOk p && env.edgeOk p) <;> simp
      simp [run_main, export_pins_eq, hA']

/-- Witness for C7: with every host operation succeeding, the run exits 0
after unexporting both pins and closing uinput. -/
theorem exit_status_and_cleanup_witness :
    (setup_ok ⟨fun _ => true, fun _ => true, fun _ => true, true,
        fun _ => true, fun _ => true, 0, []⟩ = true ∧
      pins_list.all
        (Env.unexportOk ⟨fun _ => true, fun _ => true, fun _ => true, true,
          fun _ => true, fun _ => true, 0, []⟩) = true) ∧
    ((run_main ⟨fun _ => true, fun _ => true, fun _ => true, true,
        fun _ => true, fun _ => true, 0, []⟩).exitCode = 0 ∧
      (run_main ⟨fun _ => true, fun _ => true, fun _ => true, true,
        fun _ => true, fun _ => true, 0, []⟩).unexported = pins_list ∧
      (run_main ⟨fun _ => true, fun _ => true, fun _ => true, true,
        fun _ => true, fun _ => true, 0, []⟩).uinputClosed = true) :=
  ⟨⟨by decide, by decide⟩,
    (exit_status_and_cleanup ⟨fun _ => true, fun _ => true, fun _ => true, true,
      fun _ => true, fun _ => true, 0, []⟩).1 (by decide) (by decide)⟩

/-- C8: a pin with no entry in the mapping table looks up to `none`
(`NULL`); an event routed to it emits nothing and only logs the
internal-error anomaly; and the loop itself always keeps servicing — every
pending event yields exactly one outcome, whatever its pin. -/
theorem unmapped_pin_is_logged_anomaly (pin : Nat)
    (h : ∀ m ∈ mappings, m.pin ≠ pin) :
    get_mapping pin = none ∧ button_pressed pin = ([], true) ∧
    ∀ (edge : Nat) (pins : List Nat) (s : LoopState) (es : List GpioEvent),
      ((run_events edge pins s es).2).length = es.length := by
  have hn : get_mapping pin = none := by
    rw [get_mapping, List.find?_eq_none]
    intro m hm
    simpa using h m hm
  exact ⟨hn, by simp [button_pressed, hn],
    fun edge pins s es => run_events_length edge pins s es⟩

/-- Witness for C8 at pin 5, which has no mapping. -/
theorem unmapped_pin_is_logged_anomaly_witness :
    (∀ m ∈ mappings, m.pin ≠ 5) ∧
    get_mapping 5 = none ∧ button_pressed 5 = ([], true) :=
  ⟨by decide, (unmapped_pin_is_logged_anomaly 5 (by decide)).1,
    (unmapped_pin_is_logged_anomaly 5 (by decide)).2.1⟩
